import Mathlib

/-!
Shallow embedding of the MongoDB Car Sales Analytics Dashboard (`src/app.py`).

The dashboard is a Streamlit front end over two MongoDB collections,
`cars` and `dealers`.  We model documents as Lean structures, collections
as lists of documents, and each aggregation pipeline as a Lean function
from a filter predicate and a collection to the list of rows the pipeline
returns.  BSON values that may be numeric or not (the `price` and
`mileage` fields fed to `pd.to_numeric`) are modelled by `BsonValue`;
BSON datetimes by a calendar `Date` record ordered chronologically.
Python's `datetime(y, m, d)` constructor, which raises `ValueError` on a
non-existent calendar day, is modelled by `mkDatetime` returning `none`
in exactly that case; pipelines that construct dates therefore return an
`Option`, with `none` standing for the raised exception.
-/

/-- BSON scalar stored in a vehicle field that the app later coerces with
`pd.to_numeric`: either a number (modelled as a rational) or a string. -/
inductive BsonValue where
  | num (q : ℚ)
  | str (s : String)
deriving DecidableEq, Repr

/-- Numeric view of a BSON value: `some q` when the stored value is the
number `q`, `none` otherwise.  MongoDB accumulators such as `$avg` act on
exactly the numeric values. -/
def BsonValue.numOf : BsonValue → Option ℚ
  | .num q => some q
  | .str _ => none

/-- Calendar date, modelling both Python `datetime` values (at midnight) and
BSON datetimes stored in service events. -/
structure Date where
  year : Int
  month : Nat
  day : Nat
deriving DecidableEq, Repr

/-- Chronological (lexicographic year/month/day) comparison of dates; this is
how MongoDB orders BSON datetimes in `$gte`. -/
def dateLe (a b : Date) : Bool :=
  a.year < b.year ||
    (a.year == b.year &&
      (a.month < b.month || (a.month == b.month && a.day ≤ b.day)))

/-- Gregorian leap-year test, as implemented by Python's `calendar`/`datetime`. -/
def isLeapYear (y : Int) : Bool :=
  y % 4 == 0 && (y % 100 != 0 || y % 400 == 0)

/-- Number of days in a month of a given year (Gregorian calendar). -/
def daysInMonth (y : Int) (m : Nat) : Nat :=
  if m = 2 then (if isLeapYear y then 29 else 28)
  else if m = 4 || m = 6 || m = 9 || m = 11 then 30
  else 31

/-- Python's `datetime(year, month, day)`: returns the date when it exists,
`none` when the constructor would raise `ValueError` (day out of range for
the month, month out of range, or year outside `MINYEAR..MAXYEAR`). -/
def mkDatetime (y : Int) (m d : Nat) : Option Date :=
  if 1 ≤ y && y ≤ 9999 && 1 ≤ m && m ≤ 12 && 1 ≤ d && d ≤ daysInMonth y m then
    some ⟨y, m, d⟩
  else none

/-- Embedded service event of a vehicle document (`services` array). -/
structure ServiceEvent where
  Date_of_Service : Date
  description : String
deriving DecidableEq, Repr

/-- Embedded accident event of a vehicle document (`accidents` array). -/
structure AccidentEvent where
  Date_of_Accident : Date
  Severity : String
  description : String
deriving DecidableEq, Repr

/-- Document of the `dealers` collection. -/
structure Dealer where
  DealerID : Int
  DealerName : String
deriving DecidableEq, Repr

/-- Document of the `cars` collection.  The `_id` key is modelled as `id`. -/
structure Vehicle where
  id : Int
  manufacturer : String
  model : String
  price : BsonValue
  mileage : BsonValue
  fuel_type : String
  engine_size : BsonValue
  year_of_manufacturing : Int
  dealer_id : Int
  features : List String
  services : List ServiceEvent
  accidents : List AccidentEvent
deriving DecidableEq, Repr

/-- Compiled MongoDB match filter produced by `build_match`: each optional
constraint is present (`some`) exactly when `build_match` put the
corresponding key into the `match` dict; `price` and `year_of_manufacturing`
hold the `{"$gte": lo, "$lte": hi}` closed-interval bounds. -/
structure MatchFilter where
  manufacturer : Option String
  fuel_type : Option (List String)
  dealer_id : Option Int
  price : Int × Int
  year_of_manufacturing : Int × Int
deriving DecidableEq, Repr

/-- Decimal value of a non-empty run of ASCII digit characters; `none` when
the run is empty or contains a non-digit. -/
def digitsVal : List Char → Option Nat
  | [] => none
  | [c] => if c.isDigit then some (c.toNat - 48) else none
  | c :: cs =>
    if c.isDigit then
      (digitsVal cs).map (fun n => (c.toNat - 48) * 10 ^ cs.length + n)
    else none

/-- A list of characters with surrounding spaces removed, as Python's
`int(...)` ignores leading and trailing whitespace on its string argument. -/
def stripSpaces (l : List Char) : List Char :=
  ((l.dropWhile (· = ' ')).reverse.dropWhile (· = ' ')).reverse

/-- Python's `int(s)` on a string: strips whitespace, accepts an optional
sign followed by digits, and raises `ValueError` (modelled as `none`)
otherwise. -/
def pyInt (s : List Char) : Option Int :=
  match stripSpaces s with
  | '-' :: ds => (digitsVal ds).map (fun n => -(n : Int))
  | '+' :: ds => (digitsVal ds).map (fun n => (n : Int))
  | ds => (digitsVal ds).map (fun n => (n : Int))

/-- `parse_dealer` from `app.py`: `"All"` maps to `None`; otherwise the text
before the `"|"` separator (the whole string when there is no separator, as
with Python's `split`) is converted with `int(...)`. -/
def parse_dealer (value : String) : Option Int :=
  if value = "All" then none
  else pyInt (value.data.takeWhile (fun c => c ≠ '|'))

/-- `build_match` from `app.py`.  Note the Python truthiness tests: the
manufacturer key is added when the selection differs from `"All"`, the fuel
key when the selected list is non-empty, and the dealer key when
`dealer_id_filter` is truthy — which excludes both `None` and the integer
`0`.  The price and year range keys are always added. -/
def build_match (sel_manufacturer : String) (sel_fuel : List String)
    (dealer_id_filter : Option Int) (price_range year_range : Int × Int) :
    MatchFilter :=
  { manufacturer := if sel_manufacturer ≠ "All" then some sel_manufacturer else none
    fuel_type := if sel_fuel ≠ [] then some sel_fuel else none
    dealer_id :=
      match dealer_id_filter with
      | none => none
      | some d => if d ≠ 0 then some d else none
    price := price_range
    year_of_manufacturing := year_range }

/-- Row of the manufacturer distribution chart (`$project` of
`manufacturer_distribution_pipeline`). -/
structure ManufacturerCountRow where
  manufacturer : String
  count : Nat
deriving DecidableEq, Repr

/-- Row of the average-price chart (`avg_price_by_manufacturer_pipeline`);
`avg_price` is `none` when MongoDB's `$avg` yields BSON `null` (no numeric
input values in the group). -/
structure AvgPriceRow where
  manufacturer : String
  avg_price : Option ℚ
deriving DecidableEq, Repr

/-- Row of the accident-severity chart (`accident_severity_pipeline`). -/
structure SeverityCountRow where
  severity : String
  count : Nat
deriving DecidableEq, Repr

/-- Row of the fuel-type distribution chart (`fuel_distribution_pipeline`). -/
structure FuelCountRow where
  fuel_type : String
  count : Nat
deriving DecidableEq, Repr

/-- Row of the service-frequency chart (`service_frequency_pipeline`). -/
structure ServiceYearRow where
  year : Int
  services_count : Nat
deriving DecidableEq, Repr

/-- Row surviving `fetch_price_mileage`'s numeric coercion and `dropna`. -/
structure PriceMileageRow where
  price : ℚ
  mileage : ℚ
  manufacturer : String
  model : String
  fuel_type : String
deriving DecidableEq, Repr

/-- MongoDB's `$avg` accumulator over the values of a group: the arithmetic
mean of the numeric values, ignoring non-numeric ones, and BSON `null`
(`none`) when there is no numeric value. -/
def mongoAvg (vals : List BsonValue) : Option ℚ :=
  let nums := vals.filterMap BsonValue.numOf
  if nums.isEmpty then none else some (nums.sum / nums.length)

/-- Sort order of `{"$sort": {"count": -1}}`: descending in the `count`
field extracted by `cnt`. -/
def countDesc {ρ : Type} (cnt : ρ → Nat) (a b : ρ) : Prop :=
  cnt b ≤ cnt a

instance {ρ : Type} (cnt : ρ → Nat) : DecidableRel (countDesc cnt) :=
  fun _ _ => Nat.decLe _ _

instance {ρ : Type} (cnt : ρ → Nat) : IsTotal ρ (countDesc cnt) :=
  ⟨fun a b => Nat.le_total (cnt b) (cnt a)⟩

instance {ρ : Type} (cnt : ρ → Nat) : IsTrans ρ (countDesc cnt) :=
  ⟨fun _ _ _ hab hbc => Nat.le_trans hbc hab⟩

/-- BSON comparison restricted to the values `$avg` can produce: `null`
(`none`) sorts below every number. -/
def bsonNumLe : Option ℚ → Option ℚ → Bool
  | none, _ => true
  | some _, none => false
  | some p, some q => decide (p ≤ q)

/-- Sort order of `{"$sort": {"avg_price": -1}}`: descending in `avg_price`,
with `null` averages last. -/
def avgDesc (a b : AvgPriceRow) : Prop :=
  bsonNumLe b.avg_price a.avg_price = true

instance : DecidableRel avgDesc :=
  fun _ _ => instDecidableEqBool _ _

theorem bsonNumLe_total (x y : Option ℚ) :
    bsonNumLe x y = true ∨ bsonNumLe y x = true := by
  rcases x with _ | p <;> rcases y with _ | q <;> simp [bsonNumLe]
  exact le_total p q

theorem bsonNumLe_trans {x y z : Option ℚ} (h1 : bsonNumLe x y = true)
    (h2 : bsonNumLe y z = true) : bsonNumLe x z = true := by
  rcases x with _ | p <;> rcases y with _ | q <;> rcases z with _ | u <;>
    simp [bsonNumLe] at *
  exact le_trans h1 h2

instance : IsTotal AvgPriceRow avgDesc :=
  ⟨fun a b => bsonNumLe_total b.avg_price a.avg_price⟩

instance : IsTrans AvgPriceRow avgDesc :=
  ⟨fun _ _ _ hab hbc => bsonNumLe_trans hbc hab⟩

/-- Sort order of `{"$sort": {"year": 1}}`: ascending in `year`. -/
def yearAsc (a b : ServiceYearRow) : Prop :=
  a.year ≤ b.year

instance : DecidableRel yearAsc :=
  fun _ _ => Int.decLe _ _

instance : IsTotal ServiceYearRow yearAsc :=
  ⟨fun a b => Int.le_total a.year b.year⟩

instance : IsTrans ServiceYearRow yearAsc :=
  ⟨fun _ _ _ hab hbc => le_trans hab hbc⟩

/-- `manufacturer_distribution_pipeline` from `app.py`: after the `$match`
stage (the predicate `P`), group the vehicles by `manufacturer`, count each
group with `{"$sum": 1}`, project to `manufacturer`/`count` rows and sort by
`count` descending. -/
def manufacturer_distribution_pipeline (P : Vehicle → Bool)
    (cars : List Vehicle) : List ManufacturerCountRow :=
  let keys := (cars.filter P).map Vehicle.manufacturer
  List.insertionSort (countDesc ManufacturerCountRow.count)
    (keys.dedup.map (fun m => ⟨m, keys.count m⟩))

/-- `avg_price_by_manufacturer_pipeline` from `app.py`: after the `$match`
stage, group by `manufacturer` with `{"$avg": "$price"}`, project to
`manufacturer`/`avg_price` rows and sort by `avg_price` descending. -/
def avg_price_by_manufacturer_pipeline (P : Vehicle → Bool)
    (cars : List Vehicle) : List AvgPriceRow :=
  let filtered := cars.filter P
  let keys := filtered.map Vehicle.manufacturer
  List.insertionSort avgDesc
    (keys.dedup.map (fun m =>
      ⟨m, mongoAvg ((filtered.filter (fun v => v.manufacturer == m)).map
        Vehicle.price)⟩))

/-- `accident_severity_pipeline` from `app.py`: after the `$match` stage,
`$unwind` the `accidents` array (one document per embedded accident; a
vehicle with no accidents contributes nothing), group by
`accidents.Severity`, count, project to `severity`/`count` rows and sort by
`count` descending. -/
def accident_severity_pipeline (P : Vehicle → Bool)
    (cars : List Vehicle) : List SeverityCountRow :=
  let keys := (cars.filter P).flatMap
    (fun v => v.accidents.map AccidentEvent.Severity)
  List.insertionSort (countDesc SeverityCountRow.count)
    (keys.dedup.map (fun s => ⟨s, keys.count s⟩))

/-- `fuel_distribution_pipeline` from `app.py`: after the `$match` stage,
group by `fuel_type`, count, project to `fuel_type`/`count` rows and sort by
`count` descending. -/
def fuel_distribution_pipeline (P : Vehicle → Bool)
    (cars : List Vehicle) : List FuelCountRow :=
  let keys := (cars.filter P).map Vehicle.fuel_type
  List.insertionSort (countDesc FuelCountRow.count)
    (keys.dedup.map (fun f => ⟨f, keys.count f⟩))

/-- Stages of `service_frequency_pipeline` after the cutoff date has been
constructed: `$unwind` the `services` array, keep the events with
`Date_of_Service` at or after the cutoff (`{"$gte": cutoff}`), group by
`{"$year": "$services.Date_of_Service"}`, count, project to
`year`/`services_count` rows and sort by `year` ascending. -/
def service_frequency_rows (cutoff : Date) (P : Vehicle → Bool)
    (cars : List Vehicle) : List ServiceYearRow :=
  let events := (cars.filter P).flatMap Vehicle.services
  let kept := events.filter (fun e => dateLe cutoff e.Date_of_Service)
  let keys := kept.map (fun e => e.Date_of_Service.year)
  List.insertionSort yearAsc
    (keys.dedup.map (fun y => ⟨y, keys.count y⟩))

/-- `service_frequency_pipeline` from `app.py`: computes
`cutoff = datetime(datetime.now().year - 5, datetime.now().month,
datetime.now().day)` and then runs the aggregation.  The `datetime`
constructor raises `ValueError` when that calendar day does not exist
(modelled as `none`), in which case no rows are produced. -/
def service_frequency_pipeline (now : Date) (P : Vehicle → Bool)
    (cars : List Vehicle) : Option (List ServiceYearRow) :=
  (mkDatetime (now.year - 5) now.month now.day).map
    (fun cutoff => service_frequency_rows cutoff P cars)

/-- Decimal digit run that may be empty (contributing the value `0`, as the
integer or fractional part of `"12."` / `".5"` does). -/
def digitsValOpt (l : List Char) : Option Nat :=
  if l = [] then some 0 else digitsVal l

/-- Unsigned decimal literal: digits, optionally with one decimal point
(`"12"`, `"12.5"`, `"12."`, `".5"`). -/
def parseUnsignedDecimal (s : List Char) : Option ℚ :=
  match s.dropWhile (fun c => c ≠ '.') with
  | [] => (digitsVal s).map (fun n => (n : ℚ))
  | _ :: fracPart =>
    if s.takeWhile (fun c => c ≠ '.') = [] && fracPart = [] then none
    else
      match digitsValOpt (s.takeWhile (fun c => c ≠ '.')),
          digitsValOpt fracPart with
      | some i, some f =>
        some ((i : ℚ) + (f : ℚ) / (10 : ℚ) ^ fracPart.length)
      | _, _ => none

/-- Signed decimal literal with surrounding whitespace allowed. -/
def parseDecimal (s : List Char) : Option ℚ :=
  match stripSpaces s with
  | '-' :: rest => (parseUnsignedDecimal rest).map (fun q => -q)
  | '+' :: rest => parseUnsignedDecimal rest
  | rest => parseUnsignedDecimal rest

/-- `pd.to_numeric(column, errors="coerce")` applied to one cell: a number
is kept, a string holding a decimal literal is parsed, anything else
becomes NaN (`none`), which the subsequent `dropna()` removes.  Exotic
numeric formats pandas would also accept (scientific notation, infinities)
are not modelled. -/
def toNumericCell : BsonValue → Option ℚ
  | .num q => some q
  | .str s => parseDecimal s.data

/-- One projected document of `fetch_price_mileage` after numeric coercion
and `dropna()`: `some` row when both `price` and `mileage` coerce, `none`
(dropped row) otherwise. -/
def pmRow (v : Vehicle) : Option PriceMileageRow :=
  match toNumericCell v.price, toNumericCell v.mileage with
  | some p, some m => some ⟨p, m, v.manufacturer, v.model, v.fuel_type⟩
  | _, _ => none

/-- `fetch_price_mileage` from `app.py`: `find(query, projection)` keeps the
vehicles matching the predicate, `.limit(limit)` caps the cursor (the
default cap is 2000), then `pd.to_numeric(..., errors="coerce")` on `price`
and `mileage` followed by `dropna()` removes the rows whose price or
mileage fails numeric coercion. -/
def fetch_price_mileage (P : Vehicle → Bool) (cars : List Vehicle)
    (limit : Nat) : List PriceMileageRow :=
  ((cars.filter P).take limit).filterMap pmRow

/-- `get_car_detail` from `app.py`: `find_one({"_id": car_id})`, i.e. the
first document with the given id, `none` (MongoDB's `None`) when no
document matches.  The function is total: an unmatched identifier yields
`none`, not an exception. -/
def get_car_detail (cars : List Vehicle) (car_id : Int) : Option Vehicle :=
  cars.find? (fun v => v.id == car_id)

/-- Dealer-name lookup of the detail view (`app.py` lines 319–321):
`dealers_coll.find_one({"DealerID": car.get("dealer_id")})` followed by
`dealer["DealerName"] if dealer else "Unknown"` — a missing dealer record
is non-fatal and yields the placeholder string. -/
def dealer_display_name (dealers : List Dealer) (dealer_id : Int) : String :=
  match dealers.find? (fun d => d.DealerID == dealer_id) with
  | some d => d.DealerName
  | none => "Unknown"

/-- Values computed once at startup by `load_filter_options`. -/
structure FilterOptions where
  manufacturers : List String
  fuel_types : List String
  dealers_map : List (String × String)
  min_price : BsonValue
  max_price : BsonValue
  min_year : Int
  max_year : Int
deriving DecidableEq, Repr

/-- BSON total order on the modelled scalars, as used by MongoDB sorts:
numbers compare numerically and sort before strings, strings compare
lexicographically. -/
def bsonLe (a b : BsonValue) : Bool :=
  match a, b with
  | .num p, .num q => decide (p ≤ q)
  | .num _, .str _ => true
  | .str _, .num _ => false
  | .str s, .str t => decide (s ≤ t)

/-- Sort key of `find_one(sort=[("price", 1)])`. -/
def priceAscV (a b : Vehicle) : Prop :=
  bsonLe a.price b.price = true

instance : DecidableRel priceAscV :=
  fun _ _ => instDecidableEqBool _ _

/-- Sort key of `find_one(sort=[("price", -1)])`. -/
def priceDescV (a b : Vehicle) : Prop :=
  bsonLe b.price a.price = true

instance : DecidableRel priceDescV :=
  fun _ _ => instDecidableEqBool _ _

/-- Sort key of `find_one(sort=[("year_of_manufacturing", 1)])`. -/
def yearAscV (a b : Vehicle) : Prop :=
  a.year_of_manufacturing ≤ b.year_of_manufacturing

instance : DecidableRel yearAscV :=
  fun _ _ => Int.decLe _ _

/-- Sort key of `find_one(sort=[("year_of_manufacturing", -1)])`. -/
def yearDescV (a b : Vehicle) : Prop :=
  b.year_of_manufacturing ≤ a.year_of_manufacturing

instance : DecidableRel yearDescV :=
  fun _ _ => Int.decLe _ _

/-- `load_filter_options` from `app.py`: `distinct` lists of manufacturers
and fuel types, the dealer id→name map, and the four UI bounds obtained by
`find_one(sort=...)["price"]` / `["year_of_manufacturing"]`.  `find_one` on
an empty collection returns `None`, and subscripting `None` raises
`TypeError`; the raise is modelled by the whole computation returning
`none`. -/
def load_filter_options (cars : List Vehicle) (dealers : List Dealer) :
    Option FilterOptions :=
  (List.insertionSort priceAscV cars).head?.bind (fun vminp =>
  (List.insertionSort priceDescV cars).head?.bind (fun vmaxp =>
  (List.insertionSort yearAscV cars).head?.bind (fun vminy =>
  (List.insertionSort yearDescV cars).head?.map (fun vmaxy =>
    { manufacturers := (cars.map Vehicle.manufacturer).dedup
      fuel_types := (cars.map Vehicle.fuel_type).dedup
      dealers_map := dealers.map (fun d => (toString d.DealerID, d.DealerName))
      min_price := vminp.price
      max_price := vmaxp.price
      min_year := vminy.year_of_manufacturing
      max_year := vmaxy.year_of_manufacturing }))))

/-- Concrete vehicle used to evaluate the theorems on sample data, after the
example scenario of the specification (three Toyota petrol cars priced
8000, 12000 and 16000). -/
def witnessCar1 : Vehicle :=
  { id := 1, manufacturer := "Toyota", model := "Corolla"
    price := .num 8000, mileage := .num 42000, fuel_type := "Petrol"
    engine_size := .num 2, year_of_manufacturing := 2016, dealer_id := 3
    features := ["Air Conditioning"]
    services := [⟨⟨2020, 6, 15⟩, "annual service"⟩,
                 ⟨⟨2020, 6, 14⟩, "oil change"⟩]
    accidents := [⟨⟨2019, 5, 1⟩, "Minor", "scratched bumper"⟩] }

/-- Second sample vehicle. -/
def witnessCar2 : Vehicle :=
  { id := 2, manufacturer := "Toyota", model := "Yaris"
    price := .num 12000, mileage := .num 30000, fuel_type := "Petrol"
    engine_size := .num 1, year_of_manufacturing := 2018, dealer_id := 3
    features := []
    services := [⟨⟨2023, 1, 10⟩, "brake check"⟩]
    accidents := [⟨⟨2021, 2, 3⟩, "Minor", "door dent"⟩,
                  ⟨⟨2022, 9, 8⟩, "Severe", "rear-end collision"⟩] }

/-- Third sample vehicle. -/
def witnessCar3 : Vehicle :=
  { id := 3, manufacturer := "Toyota", model := "RAV4"
    price := .num 16000, mileage := .num 15000, fuel_type := "Petrol"
    engine_size := .num 2, year_of_manufacturing := 2021, dealer_id := 7
    features := ["Sunroof", "Heated Seats"]
    services := []
    accidents := [] }

/-- Sample `cars` collection used by the witness theorems. -/
def witnessCars : List Vehicle :=
  [witnessCar1, witnessCar2, witnessCar3]

/-- Sample vehicle whose `price` is a non-numeric string, so numeric
coercion fails and `fetch_price_mileage` drops its row. -/
def witnessCar4 : Vehicle :=
  { id := 4, manufacturer := "Ford", model := "Focus"
    price := .str "N/A", mileage := .str "60000", fuel_type := "Diesel"
    engine_size := .num 2, year_of_manufacturing := 2015, dealer_id := 7
    features := []
    services := []
    accidents := [] }

/-- Sample collection with one row that fails numeric coercion. -/
def witnessCarsMixed : List Vehicle :=
  witnessCars ++ [witnessCar4]

/-- Sample `dealers` collection. -/
def witnessDealers : List Dealer :=
  [⟨3, "City Motors"⟩, ⟨7, "Hilltop Autos"⟩]

theorem mem_sorted_group {β ρ : Type} [DecidableEq β] (keys : List β)
    (mk : β → ρ) (r : ρ → ρ → Prop) [DecidableRel r] (x : ρ) :
    x ∈ List.insertionSort r (keys.dedup.map mk) ↔ ∃ k, k ∈ keys ∧ x = mk k := by
  rw [List.mem_insertionSort, List.mem_map]
  constructor
  · rintro ⟨k, hk, hx⟩
    exact ⟨k, List.mem_dedup.mp hk, hx.symm⟩
  · rintro ⟨k, hk, hx⟩
    exact ⟨k, List.mem_dedup.mpr hk, hx.symm⟩

theorem sum_counts_sorted_group {β ρ : Type} [DecidableEq β] (keys : List β)
    (mk : β → ρ) (cnt : ρ → Nat) (h : ∀ k, cnt (mk k) = keys.count k)
    (r : ρ → ρ → Prop) [DecidableRel r] :
    ((List.insertionSort r (keys.dedup.map mk)).map cnt).sum = keys.length := by
  have hperm := (List.perm_insertionSort r (keys.dedup.map mk)).map cnt
  rw [hperm.sum_eq, List.map_map]
  have heq : (cnt ∘ mk) = fun k => keys.count k := funext h
  rw [heq, List.sum_map_count_dedup_eq_length]

theorem count_map_eq_length_filter {α β : Type} [DecidableEq β] (l : List α)
    (f : α → β) (b : β) :
    (l.map f).count b = (l.filter (fun a => f a == b)).length := by
  rw [List.count_eq_countP, List.countP_map, List.countP_eq_length_filter]
  rfl

/-- Claim C3: for every predicate, the `count` fields of the manufacturer
distribution sum to the number of matching vehicles, and likewise for the
fuel-type distribution (each vehicle has exactly one `manufacturer` and one
`fuel_type` field, so `$group` partitions the matching vehicles). -/
theorem distribution_counts_sum_eq_matching (P : Vehicle → Bool)
    (cars : List Vehicle) :
    ((manufacturer_distribution_pipeline P cars).map
        ManufacturerCountRow.count).sum = (cars.filter P).length ∧
    ((fuel_distribution_pipeline P cars).map FuelCountRow.count).sum
      = (cars.filter P).length := by
  constructor
  · have h := sum_counts_sorted_group ((cars.filter P).map Vehicle.manufacturer)
      (fun m => (⟨m, ((cars.filter P).map Vehicle.manufacturer).count m⟩ :
        ManufacturerCountRow))
      ManufacturerCountRow.count (fun _ => rfl)
      (countDesc ManufacturerCountRow.count)
    rw [List.length_map] at h
    exact h
  · have h := sum_counts_sorted_group ((cars.filter P).map Vehicle.fuel_type)
      (fun f => (⟨f, ((cars.filter P).map Vehicle.fuel_type).count f⟩ :
        FuelCountRow))
      FuelCountRow.count (fun _ => rfl)
      (countDesc FuelCountRow.count)
    rw [List.length_map] at h
    exact h

/-- Claim C4: the accident-severity transform unwinds each matching vehicle
into one row per embedded accident, so the `count` fields over all severity
rows sum to the total number of embedded accident entries across matching
vehicles (not the vehicle count); each row's count is the number of
accident entries with that severity, a severity appears as a row exactly
when some matching vehicle has an accident with it, and the rows are sorted
by `count` descending. -/
theorem accident_severity_spec (P : Vehicle → Bool) (cars : List Vehicle) :
    ((accident_severity_pipeline P cars).map SeverityCountRow.count).sum
      = ((cars.filter P).map (fun v => v.accidents.length)).sum ∧
    (∀ r ∈ accident_severity_pipeline P cars,
      r.count = ((cars.filter P).flatMap
        (fun v => v.accidents.map AccidentEvent.Severity)).count r.severity) ∧
    (∀ s : String,
      (∃ r ∈ accident_severity_pipeline P cars, r.severity = s) ↔
        ∃ v ∈ cars, P v = true ∧ ∃ a ∈ v.accidents, a.Severity = s) ∧
    List.Sorted (countDesc SeverityCountRow.count)
      (accident_severity_pipeline P cars) := by
  refine ⟨?_, ?_, ?_, List.sorted_insertionSort _ _⟩
  · have h := sum_counts_sorted_group
      ((cars.filter P).flatMap (fun v => v.accidents.map AccidentEvent.Severity))
      (fun s => (⟨s, ((cars.filter P).flatMap
        (fun v => v.accidents.map AccidentEvent.Severity)).count s⟩ :
        SeverityCountRow))
      SeverityCountRow.count (fun _ => rfl)
      (countDesc SeverityCountRow.count)
    rw [List.length_flatMap] at h
    have hcomp : (List.length ∘ fun v : Vehicle =>
        List.map AccidentEvent.Severity v.accidents)
        = fun v : Vehicle => v.accidents.length := by
      funext v
      simp [List.length_map]
    rw [hcomp] at h
    exact h
  · intro r hr
    obtain ⟨k, _, rfl⟩ := (mem_sorted_group _ _ _ r).mp hr
    rfl
  · intro s
    constructor
    · rintro ⟨r, hr, rfl⟩
      obtain ⟨k, hk, rfl⟩ := (mem_sorted_group _ _ _ r).mp hr
      obtain ⟨v, hv, hs⟩ := List.mem_flatMap.mp hk
      obtain ⟨a, ha, has⟩ := List.mem_map.mp hs
      exact ⟨v, (List.mem_filter.mp hv).1, (List.mem_filter.mp hv).2,
        a, ha, has⟩
    · rintro ⟨v, hv, hPv, a, ha, has⟩
      refine ⟨_, (mem_sorted_group _ _ _ _).mpr ⟨s, ?_, rfl⟩, rfl⟩
      exact List.mem_flatMap.mpr ⟨v, List.mem_filter.mpr ⟨hv, hPv⟩,
        List.mem_map.mpr ⟨a, ha, has⟩⟩

/-- Witness for `accident_severity_spec`: the first conjunct at a concrete
collection, with the evaluated sum checked by `decide`. -/
theorem accident_severity_spec_witness :
    ((accident_severity_pipeline (fun _ => true) witnessCars).map
        SeverityCountRow.count).sum
      = ((witnessCars.filter (fun _ => true)).map
          (fun v => v.accidents.length)).sum ∧
    ((accident_severity_pipeline (fun _ => true) witnessCars).map
        SeverityCountRow.count).sum = 3 :=
  ⟨(accident_severity_spec (fun _ => true) witnessCars).1, by decide⟩

theorem exists_rat_list_of_isSome : ∀ l : List BsonValue,
    (∀ x ∈ l, x.numOf.isSome = true) →
      ∃ qs : List ℚ, l = qs.map BsonValue.num
  | [], _ => ⟨[], rfl⟩
  | x :: l, h => by
    obtain ⟨qs, hqs⟩ := exists_rat_list_of_isSome l
      (fun y hy => h y (List.mem_cons_of_mem _ hy))
    rcases x with q | s
    · exact ⟨q :: qs, by rw [hqs]; rfl⟩
    · have hx := h (BsonValue.str s) (List.mem_cons_self _ _)
      simp [BsonValue.numOf] at hx

theorem mongoAvg_map_num (qs : List ℚ) :
    mongoAvg (qs.map BsonValue.num)
      = if qs.isEmpty then none else some (qs.sum / qs.length) := by
  have hcomp : (BsonValue.numOf ∘ BsonValue.num) = some := funext (fun _ => rfl)
  simp only [mongoAvg, List.filterMap_map, hcomp, List.filterMap_some]

/-- Claim C2: for every predicate and manufacturer (over a collection whose
prices are numeric, as the schema guarantees), the average-price transform
has a row for a manufacturer iff some matching vehicle has it, every row's
`avg_price` is the arithmetic mean of `price` over exactly the matching
vehicles of that manufacturer, and the rows are sorted by `avg_price`
descending. -/
theorem avg_price_by_manufacturer_spec (P : Vehicle → Bool)
    (cars : List Vehicle) (M : String)
    (hnum : ∀ v ∈ cars, (Vehicle.price v).numOf.isSome = true) :
    ((∃ r ∈ avg_price_by_manufacturer_pipeline P cars, r.manufacturer = M) ↔
      ∃ v ∈ cars, P v = true ∧ v.manufacturer = M) ∧
    (∀ r ∈ avg_price_by_manufacturer_pipeline P cars,
      ∃ qs : List ℚ, qs ≠ [] ∧
        ((cars.filter P).filter
            (fun v => v.manufacturer == r.manufacturer)).map Vehicle.price
          = qs.map BsonValue.num ∧
        r.avg_price = some (qs.sum / qs.length)) ∧
    List.Sorted avgDesc (avg_price_by_manufacturer_pipeline P cars) := by
  refine ⟨⟨?_, ?_⟩, ?_, List.sorted_insertionSort _ _⟩
  · rintro ⟨r, hr, rfl⟩
    obtain ⟨k, hk, rfl⟩ := (mem_sorted_group _ _ _ r).mp hr
    obtain ⟨v, hv, hvk⟩ := List.mem_map.mp hk
    exact ⟨v, (List.mem_filter.mp hv).1, (List.mem_filter.mp hv).2, hvk⟩
  · rintro ⟨v, hv, hPv, hvM⟩
    refine ⟨_, (mem_sorted_group _ _ _ _).mpr ⟨M, ?_, rfl⟩, rfl⟩
    exact List.mem_map.mpr ⟨v, List.mem_filter.mpr ⟨hv, hPv⟩, hvM⟩
  · intro r hr
    obtain ⟨k, hk, rfl⟩ := (mem_sorted_group _ _ _ r).mp hr
    have hall : ∀ x ∈ ((cars.filter P).filter
        (fun v => v.manufacturer == k)).map Vehicle.price,
        x.numOf.isSome = true := by
      intro x hx
      obtain ⟨v, hv, hvx⟩ := List.mem_map.mp hx
      rw [← hvx]
      exact hnum v (List.mem_filter.mp (List.mem_filter.mp hv).1).1
    obtain ⟨qs, hqs⟩ := exists_rat_list_of_isSome _ hall
    have hne : qs ≠ [] := by
      obtain ⟨v, hv, hvk⟩ := List.mem_map.mp hk
      have hvg : v ∈ (cars.filter P).filter (fun v => v.manufacturer == k) :=
        List.mem_filter.mpr ⟨hv, by simp [hvk]⟩
      intro hqsnil
      have hmapnil : ((cars.filter P).filter
          (fun v => v.manufacturer == k)).map Vehicle.price = [] := by
        rw [hqs, hqsnil]
        rfl
      rw [List.map_eq_nil_iff] at hmapnil
      rw [hmapnil] at hvg
      exact List.not_mem_nil v hvg
    refine ⟨qs, hne, hqs, ?_⟩
    show mongoAvg (((cars.filter P).filter
      (fun v => v.manufacturer == k)).map Vehicle.price)
        = some (qs.sum / qs.length)
    rw [hqs, mongoAvg_map_num, if_neg (by simp [hne])]

/-- Witness for `avg_price_by_manufacturer_spec`, on the specification's
example scenario: three matching Toyotas priced 8000, 12000 and 16000 give
one row with average price 12000. -/
theorem avg_price_by_manufacturer_spec_witness :
    (∃ r ∈ avg_price_by_manufacturer_pipeline (fun _ => true) witnessCars,
      r.manufacturer = "Toyota") ∧
    avg_price_by_manufacturer_pipeline (fun _ => true) witnessCars
      = [⟨"Toyota", some 12000⟩] :=
  ⟨(avg_price_by_manufacturer_spec (fun _ => true) witnessCars "Toyota"
      (by decide)).1.mpr ⟨witnessCar1, by decide, rfl, rfl⟩,
   by
    simp only [avg_price_by_manufacturer_pipeline, witnessCars, witnessCar1,
      witnessCar2, witnessCar3, mongoAvg, BsonValue.numOf, List.filter,
      List.map, List.dedup, List.filterMap, List.insertionSort,
      List.orderedInsert]
    norm_num⟩

/-- Claim C5: when the five-years-ago date exists, the service-frequency
transform keeps exactly the service events dated at or after the cutoff
(current date minus five years, same month and day — an inclusive lower
bound, so an event dated exactly at the cutoff is counted and one strictly
before it is not), groups them by calendar year of service, counts, and
sorts the rows ascending by year. -/
theorem service_frequency_spec (now : Date) (P : Vehicle → Bool)
    (cars : List Vehicle) (cutoff : Date)
    (h : mkDatetime (now.year - 5) now.month now.day = some cutoff) :
    service_frequency_pipeline now P cars
      = some (service_frequency_rows cutoff P cars) ∧
    cutoff = ⟨now.year - 5, now.month, now.day⟩ ∧
    (∀ r ∈ service_frequency_rows cutoff P cars,
      r.services_count
        = (((cars.filter P).flatMap Vehicle.services).filter
            (fun e => dateLe cutoff e.Date_of_Service
              && e.Date_of_Service.year == r.year)).length) ∧
    (∀ y : Int,
      (∃ r ∈ service_frequency_rows cutoff P cars, r.year = y) ↔
        ∃ v ∈ cars, P v = true ∧ ∃ e ∈ v.services,
          dateLe cutoff e.Date_of_Service = true ∧
            e.Date_of_Service.year = y) ∧
    List.Sorted yearAsc (service_frequency_rows cutoff P cars) := by
  refine ⟨?_, ?_, ?_, ?_, List.sorted_insertionSort _ _⟩
  · show (mkDatetime (now.year - 5) now.month now.day).map
      (fun cutoff => service_frequency_rows cutoff P cars)
        = some (service_frequency_rows cutoff P cars)
    rw [h, Option.map_some']
  · unfold mkDatetime at h
    split_ifs at h with hc
    exact (Option.some.injEq _ _).mp h |>.symm
  · intro r hr
    obtain ⟨y, hy, rfl⟩ := (mem_sorted_group _ _ _ r).mp hr
    show ((((cars.filter P).flatMap Vehicle.services).filter
        (fun e => dateLe cutoff e.Date_of_Service)).map
          (fun e => e.Date_of_Service.year)).count y
      = (((cars.filter P).flatMap Vehicle.services).filter
          (fun e => dateLe cutoff e.Date_of_Service
            && e.Date_of_Service.year == y)).length
    rw [count_map_eq_length_filter, List.filter_filter]
    have hfun : (fun e : ServiceEvent =>
        e.Date_of_Service.year == y && dateLe cutoff e.Date_of_Service)
        = (fun e : ServiceEvent => dateLe cutoff e.Date_of_Service
            && e.Date_of_Service.year == y) :=
      funext (fun e => Bool.and_comm _ _)
    rw [hfun]
  · intro y
    constructor
    · rintro ⟨r, hr, rfl⟩
      obtain ⟨k, hk, rfl⟩ := (mem_sorted_group _ _ _ r).mp hr
      obtain ⟨e, he, hek⟩ := List.mem_map.mp hk
      obtain ⟨hev, hcut⟩ := List.mem_filter.mp he
      obtain ⟨v, hv, hevv⟩ := List.mem_flatMap.mp hev
      exact ⟨v, (List.mem_filter.mp hv).1, (List.mem_filter.mp hv).2,
        e, hevv, hcut, hek⟩
    · rintro ⟨v, hv, hPv, e, he, hcut, hey⟩
      refine ⟨_, (mem_sorted_group _ _ _ _).mpr ⟨y, ?_, rfl⟩, rfl⟩
      refine List.mem_map.mpr ⟨e, List.mem_filter.mpr ⟨?_, hcut⟩, hey⟩
      exact List.mem_flatMap.mpr ⟨v, List.mem_filter.mpr ⟨hv, hPv⟩, he⟩

/-- Witness for `service_frequency_spec`: current date 2025-06-15 gives the
cutoff 2020-06-15; `witnessCar1`'s service dated exactly 2020-06-15 is
counted and its service dated 2020-06-14 is excluded, so year 2020 has
count 1, and the rows are ascending by year. -/
theorem service_frequency_spec_witness :
    service_frequency_pipeline ⟨2025, 6, 15⟩ (fun _ => true) witnessCars
      = some (service_frequency_rows ⟨2020, 6, 15⟩ (fun _ => true)
          witnessCars) ∧
    service_frequency_rows ⟨2020, 6, 15⟩ (fun _ => true) witnessCars
      = [⟨2020, 1⟩, ⟨2023, 1⟩] :=
  ⟨(service_frequency_spec ⟨2025, 6, 15⟩ (fun _ => true) witnessCars
      ⟨2020, 6, 15⟩ (by decide)).1, by decide⟩

/-- Claim C9: on February 29 of a leap year — 2024-02-29 is a valid current
date — the cutoff construction `datetime(now.year - 5, now.month, now.day)`
asks for 2019-02-29, which does not exist, so the service-frequency
transform raises `ValueError` (modelled as `none`) instead of returning
rows, for every predicate and collection. -/
theorem service_frequency_leap_day_raises :
    isLeapYear 2024 = true ∧
    mkDatetime 2024 2 29 = some ⟨2024, 2, 29⟩ ∧
    ∀ (P : Vehicle → Bool) (cars : List Vehicle),
      service_frequency_pipeline ⟨2024, 2, 29⟩ P cars = none := by
  refine ⟨by decide, by decide, ?_⟩
  intro P cars
  show (mkDatetime ((2024 : Int) - 5) 2 29).map
    (fun cutoff => service_frequency_rows cutoff P cars) = none
  rw [show mkDatetime ((2024 : Int) - 5) 2 29 = none from by decide]
  rfl

/-- Claim C1 as stated is false: a set dealer id of `0` does NOT produce a
dealer constraint, because `build_match` guards on Python truthiness
(`if dealer_id_filter:`) and `0` is falsy.  The input is reachable from the
sidebar: a dealer option `"0 | Zero Motors"` parses to dealer id `0`. -/
theorem build_match_dealer_zero_dropped :
    parse_dealer "0 | Zero Motors" = some 0 ∧
    (parse_dealer "0 | Zero Motors").isSome = true ∧
    (build_match "All" ["Petrol"] (parse_dealer "0 | Zero Motors")
      (5000, 20000) (2015, 2023)).dealer_id = none := by
  refine ⟨?_, ?_, ?_⟩ <;> decide

/-- Claim C1, amended: `build_match` produces a manufacturer equality
constraint iff the selection is not `"All"` (and then for the selected
manufacturer), a fuel-type membership constraint iff the fuel selection is
non-empty (and then for the selected set), a dealer equality constraint iff
a dealer id is set AND non-zero (a set dealer id of `0` is treated as unset
by Python truthiness), and price and year closed-interval constraints in
every case. -/
theorem build_match_spec (sm : String) (sf : List String) (d : Option Int)
    (pr yr : Int × Int) :
    ((build_match sm sf d pr yr).manufacturer.isSome ↔ sm ≠ "All") ∧
    (∀ s, (build_match sm sf d pr yr).manufacturer = some s → s = sm) ∧
    ((build_match sm sf d pr yr).fuel_type.isSome ↔ sf ≠ []) ∧
    (∀ l, (build_match sm sf d pr yr).fuel_type = some l → l = sf) ∧
    (∀ i, (build_match sm sf d pr yr).dealer_id = some i ↔
      (d = some i ∧ i ≠ 0)) ∧
    (build_match sm sf d pr yr).price = pr ∧
    (build_match sm sf d pr yr).year_of_manufacturing = yr := by
  unfold build_match
  refine ⟨?_, ?_, ?_, ?_, ?_, rfl, rfl⟩
  · by_cases h : sm = "All" <;> simp [h]
  · intro s hs
    by_cases h : sm = "All"
    · simp [h] at hs
    · simp [h] at hs
      simp [hs, h]
  · by_cases h : sf = [] <;> simp [h]
  · intro l hl
    by_cases h : sf = []
    · simp [h] at hl
    · simp [h] at hl
      simp [hl, h]
  · intro i
    cases d with
    | none => simp
    | some j =>
      dsimp only
      constructor
      · intro hij
        by_cases h : j = 0
        · rw [if_neg (by simp [h])] at hij
          exact absurd hij (by simp)
        · rw [if_pos h] at hij
          have hj : j = i := by injection hij
          exact ⟨by rw [hj], hj ▸ h⟩
      · rintro ⟨hji, hi⟩
        have hj : j = i := by injection hji
        subst hj
        simp [hi]

/-- Witness for `build_match_spec` at a concrete sidebar selection. -/
theorem build_match_spec_witness :
    (build_match "Toyota" ["Petrol", "Diesel"] (some 3) (5000, 20000)
      (2015, 2023)).dealer_id = some 3 ∧
    (build_match "Toyota" ["Petrol", "Diesel"] (some 3) (5000, 20000)
      (2015, 2023)).manufacturer.isSome = true ∧
    (build_match "Toyota" ["Petrol", "Diesel"] (some 3) (5000, 20000)
      (2015, 2023)).price = (5000, 20000) :=
  ⟨((build_match_spec "Toyota" ["Petrol", "Diesel"] (some 3) (5000, 20000)
        (2015, 2023)).2.2.2.2.1 3).mpr ⟨rfl, by decide⟩,
   (build_match_spec "Toyota" ["Petrol", "Diesel"] (some 3) (5000, 20000)
        (2015, 2023)).1.mpr (by decide),
   (build_match_spec "Toyota" ["Petrol", "Diesel"] (some 3) (5000, 20000)
        (2015, 2023)).2.2.2.2.2.1⟩

theorem length_filterMap_eq_countP {α β : Type} (f : α → Option β) :
    ∀ l : List α, (l.filterMap f).length = l.countP (fun a => (f a).isSome)
  | [] => rfl
  | a :: l => by
    rw [List.filterMap_cons, List.countP_cons]
    rcases hf : f a with _ | b
    · simp [hf, length_filterMap_eq_countP f l]
    · simp [hf, length_filterMap_eq_countP f l]

/-- Claim C6: the price-vs-mileage sample returns at most the configured
cap of 2000 rows; every returned row carries the successfully coerced
numeric price and mileage (and projected fields) of a matching vehicle;
and rows whose price or mileage fails numeric coercion are dropped rather
than raising — the output has exactly one row per capped matching vehicle
whose two coercions succeed. -/
theorem fetch_price_mileage_spec (P : Vehicle → Bool) (cars : List Vehicle) :
    (fetch_price_mileage P cars 2000).length ≤ 2000 ∧
    (∀ r ∈ fetch_price_mileage P cars 2000,
      ∃ v, v ∈ cars ∧ P v = true ∧
        toNumericCell v.price = some r.price ∧
        toNumericCell v.mileage = some r.mileage ∧
        r.manufacturer = v.manufacturer ∧ r.model = v.model ∧
        r.fuel_type = v.fuel_type) ∧
    (fetch_price_mileage P cars 2000).length
      = (((cars.filter P).take 2000).filter
          (fun v => (toNumericCell v.price).isSome
            && (toNumericCell v.mileage).isSome)).length := by
  refine ⟨?_, ?_, ?_⟩
  · exact le_trans (List.length_filterMap_le _ _) (List.length_take_le _ _)
  · intro r hr
    obtain ⟨v, hv, hfv⟩ := List.mem_filterMap.mp hr
    have hvc := List.mem_of_mem_take hv
    refine ⟨v, (List.mem_filter.mp hvc).1, (List.mem_filter.mp hvc).2, ?_⟩
    unfold pmRow at hfv
    rcases hp : toNumericCell v.price with _ | p
    all_goals rcases hm : toNumericCell v.mileage with _ | m
    all_goals rw [hp, hm] at hfv
    · simp at hfv
    · simp at hfv
    · simp at hfv
    · have hr2 := Option.some.inj hfv
      rw [← hr2]
      exact ⟨rfl, rfl, rfl, rfl, rfl⟩
  · show (((cars.filter P).take 2000).filterMap pmRow).length
      = (((cars.filter P).take 2000).filter
          (fun v => (toNumericCell v.price).isSome
            && (toNumericCell v.mileage).isSome)).length
    rw [length_filterMap_eq_countP, List.countP_eq_length_filter]
    have hfun : (fun v : Vehicle => (pmRow v).isSome)
        = (fun v : Vehicle => (toNumericCell v.price).isSome
            && (toNumericCell v.mileage).isSome) := by
      funext v
      unfold pmRow
      rcases toNumericCell v.price with _ | p <;>
        rcases toNumericCell v.mileage with _ | m <;> rfl
    rw [hfun]

/-- Witness for `fetch_price_mileage_spec`: on the mixed sample collection
(three numeric vehicles and one with a non-numeric price) the sample keeps
exactly 3 rows. -/
theorem fetch_price_mileage_spec_witness :
    ((fetch_price_mileage (fun _ => true) witnessCarsMixed 2000).length
        ≤ 2000 ∧
      (fetch_price_mileage (fun _ => true) witnessCarsMixed 2000).length
        = (((witnessCarsMixed.filter (fun _ => true)).take 2000).filter
            (fun v => (toNumericCell v.price).isSome
              && (toNumericCell v.mileage).isSome)).length) ∧
    (fetch_price_mileage (fun _ => true) witnessCarsMixed 2000).length = 3 :=
  ⟨⟨(fetch_price_mileage_spec (fun _ => true) witnessCarsMixed).1,
    (fetch_price_mileage_spec (fun _ => true) witnessCarsMixed).2.2⟩,
   by decide⟩

/-- Claim C7: the detail lookup returns exactly the stored document when
some vehicle has the requested identifier (its `manufacturer`, `model` and
`price` therefore equal the source document's fields), and `none` — the
"not found" signal, not an exception — when no vehicle has it. -/
theorem get_car_detail_spec (cars : List Vehicle) (car_id : Int) :
    (∀ v ∈ cars, (∀ w ∈ cars, w.id = car_id → w = v) → v.id = car_id →
      get_car_detail cars car_id = some v) ∧
    ((∀ v ∈ cars, v.id ≠ car_id) → get_car_detail cars car_id = none) := by
  constructor
  · intro v hv huniq hvid
    have hsome : (cars.find? (fun v => v.id == car_id)).isSome := by
      rw [List.find?_isSome]
      exact ⟨v, hv, by simp [hvid]⟩
    obtain ⟨w, hw⟩ := Option.isSome_iff_exists.mp hsome
    have hwmem := List.mem_of_find?_eq_some hw
    have hwid := List.find?_some hw
    have hwv : w = v := huniq w hwmem (by simpa using hwid)
    show cars.find? (fun v => v.id == car_id) = some v
    rw [hw, hwv]
  · intro hall
    exact List.find?_eq_none.mpr (fun v hv => by simpa using hall v hv)

/-- Witness for `get_car_detail_spec`: id 2 returns the stored document,
id 99 is unmatched and returns `none`. -/
theorem get_car_detail_spec_witness :
    get_car_detail witnessCars 2 = some witnessCar2 ∧
    get_car_detail witnessCars 99 = none :=
  ⟨(get_car_detail_spec witnessCars 2).1 witnessCar2 (by decide) (by decide)
      (by decide),
   (get_car_detail_spec witnessCars 99).2 (by decide)⟩

/-- Claim C8 as stated is false on the letter of the placeholder: the
code's fallback string is capitalized `"Unknown"`, not `"unknown"`. -/
theorem dealer_fallback_capitalized :
    dealer_display_name [] 3 = "Unknown" ∧
    dealer_display_name [] 3 ≠ "unknown" :=
  ⟨rfl, by decide⟩

/-- Claim C8, amended: when the dealer record referenced by the vehicle is
missing, the lookup is non-fatal and the displayed dealer name falls back
to the placeholder string `"Unknown"` (capital U); when the dealer record
exists, its display name is shown. -/
theorem dealer_display_name_spec (dealers : List Dealer) (did : Int) :
    ((∀ d ∈ dealers, d.DealerID ≠ did) →
      dealer_display_name dealers did = "Unknown") ∧
    (∀ d, dealers.find? (fun d => d.DealerID == did) = some d →
      dealer_display_name dealers did = d.DealerName) := by
  constructor
  · intro hall
    unfold dealer_display_name
    rw [List.find?_eq_none.mpr (fun d hd => by simpa using hall d hd)]
  · intro d hd
    unfold dealer_display_name
    rw [hd]

/-- Witness for `dealer_display_name_spec` on the sample dealers. -/
theorem dealer_display_name_spec_witness :
    dealer_display_name witnessDealers 99 = "Unknown" ∧
    dealer_display_name witnessDealers 3 = "City Motors" :=
  ⟨(dealer_display_name_spec witnessDealers 99).1 (by decide),
   (dealer_display_name_spec witnessDealers 3).2 ⟨3, "City Motors"⟩
     (by decide)⟩

/-- Claim C10: with an empty `cars` collection, `find_one(sort=...)`
returns `None` and the `["price"]` subscript raises `TypeError`, so
`load_filter_options` fails for every dealers collection — the dashboard
dies at startup instead of showing a no-data placeholder.  On a non-empty
collection the same computation succeeds. -/
theorem load_filter_options_empty_raises :
    (∀ dealers : List Dealer, load_filter_options [] dealers = none) ∧
    (load_filter_options witnessCars witnessDealers).isSome = true :=
  ⟨fun _ => rfl, by decide⟩
